import Mathlib

/-!
Shallow embedding of the case-lifecycle core of the vetting-app repository
(`src/app/main.py`, `src/app/dependencies.py`) and proofs about it.

Conventions of the embedding:
* SQL rows become Lean structures; nullable columns become `Option` fields.
* The `cases` and `case_events` tables become `List Case` / `List CaseEvent`
  values threaded through the handler functions; a SQL `UPDATE ... WHERE id = ?`
  becomes a `List.map` that rewrites every row whose `id` matches, and an
  `INSERT` becomes an append.
* ISO-8601 timestamp strings become `Int` seconds; a string that
  `parse_iso_dt` fails to parse becomes `none`.
* Python `str.strip()` becomes `pyStrip`.
* An HTTP response other than the handler's success value is modelled as an
  `HttpError` carrying the status code and detail string; redirect responses
  (303) are modelled as `HttpError` with status 303 and the target path.
* The auxiliary tables (`memberships`, `institutions`) are modelled as
  parameters where a handler reads them; `table_exists`/`table_has_column`
  probes are taken to be true (the fully-migrated schema).
-/

namespace VettingApp

/-- Case status strings used by the code: "pending", "vetted", "rejected",
"reopened" (`src/app/main.py`). -/
inductive Status where
  | pending
  | vetted
  | rejected
  | reopened
deriving DecidableEq, Repr

/-- One row of the `cases` table, restricted to the columns the lifecycle
handlers read or write (`src/app/main.py`, `CREATE TABLE cases` and the
INSERT/UPDATE statements). Nullable columns are `Option`. -/
structure Case where
  id : String
  orgId : Option Nat
  createdAt : Option Int
  patientFirstName : String
  patientSurname : String
  patientReferralId : String
  institutionId : Option Nat
  studyDescription : String
  adminNotes : Option String
  radiologist : Option String
  status : Status
  decision : Option String
  decisionComment : Option String
  protocol : Option String
  contrastRequired : Option String
  contrastDetails : Option String
  vettedAt : Option Int
deriving DecidableEq, Repr

/-- One row of the append-only `case_events` table
(`src/app/main.py:insert_case_event`, lines 2013-2044). -/
structure CaseEvent where
  caseId : String
  orgId : Option Nat
  eventType : String
  createdAt : Int
  userId : Option Nat
  username : Option String
  orgRole : Option String
  decision : Option String
  protocol : Option String
  comment : Option String
deriving DecidableEq, Repr

/-- The acting principal as carried in the session dict: legacy `role`
column, membership `org_role`, organisation context, superuser flag and the
linked radiologist display name (`src/app/main.py:get_session_user`,
`get_current_org_context`). -/
structure User where
  id : Nat
  username : String
  role : Option String
  orgRole : Option String
  orgId : Option Nat
  isSuperuser : Bool
  radiologistName : Option String
deriving DecidableEq, Repr

/-- One row of the `institutions` table as read by `get_institution`
(`src/app/main.py`, lines 1706-1716). `sla_hours` is declared
`INTEGER NOT NULL DEFAULT 48` in the schema. -/
structure Institution where
  id : Nat
  name : String
  slaHours : Nat
  orgId : Option Nat
deriving DecidableEq, Repr

/-- A non-success HTTP response: `HTTPException(status_code, detail)` or a
`RedirectResponse` (status 303, detail = target path). -/
structure HttpError where
  status : Nat
  detail : String
deriving DecidableEq, Repr

/-- Decision strings accepted by vetting (`src/app/main.py`, line 329). -/
def DECISIONS : List String := ["Approve", "Reject", "Approve with comment"]

/-- Python `str.strip()`: drop whitespace from both ends. Defined on the
character list so that it evaluates by kernel reduction. -/
def pyStrip (s : String) : String :=
  String.mk (((s.data.dropWhile Char.isWhitespace).reverse.dropWhile Char.isWhitespace).reverse)

/-- Python `s.isdigit()` followed by `int(s)` (ASCII digits): `some` exactly
for a non-empty all-digit string. Defined on the character list so that it
evaluates by kernel reduction. -/
def pyToNat? (s : String) : Option Nat :=
  if s.data ≠ [] ∧ s.data.all Char.isDigit then
    some (s.data.foldl (fun n c => n * 10 + (c.toNat - 48)) 0)
  else none

/-- Python `s.rsplit("-", 1)[-1]`: the text after the last dash, or the whole
string when there is no dash. -/
def afterLastDash (s : String) : String :=
  String.mk ((s.data.reverse.takeWhile (fun c => c ≠ '-')).reverse)

/-- Embeds `require_admin` (`src/app/main.py`, lines 1828-1838), with the
`memberships` table present: pass for a superuser, for membership role
`org_admin`/`radiology_admin`, or for the legacy `role == "admin"`. -/
def require_admin (u : User) : Bool :=
  u.isSuperuser || decide (u.orgRole = some "org_admin")
    || decide (u.orgRole = some "radiology_admin") || decide (u.role = some "admin")

/-- Embeds `require_radiologist` (`src/app/main.py`, lines 1848-1857), with
the `memberships` table present: superusers are refused, membership role must
be `radiologist`. -/
def require_radiologist (u : User) : Bool :=
  !u.isSuperuser && decide (u.orgRole = some "radiologist")

/-- Embeds `get_institution` (`src/app/main.py`, lines 1706-1716): lookup by
id, additionally filtered by `org_id` when a truthy org id is supplied. -/
def get_institution (insts : List Institution) (instId : Nat) (orgId : Option Nat) :
    Option Institution :=
  match orgId with
  | some o => insts.find? (fun i => decide (i.id = instId ∧ i.orgId = some o))
  | none => insts.find? (fun i => decide (i.id = instId))

/-- Embeds `insert_case_event` (`src/app/main.py`, lines 2013-2044): appends
one immutable row to `case_events`. In the source this opens its own
database connection and commits it, separately from any state-changing
transaction of the caller. `org_role` falls back from the membership role to
the legacy role, as in the source. -/
def insert_case_event (events : List CaseEvent) (caseId : String) (orgId : Option Nat)
    (eventType : String) (user : Option User) (now : Int)
    (decision protocol comment : Option String) : List CaseEvent :=
  events ++ [{ caseId := caseId, orgId := orgId, eventType := eventType, createdAt := now,
               userId := user.map (·.id), username := user.map (·.username),
               orgRole := user.bind (fun u => u.orgRole.orElse (fun _ => u.role)),
               decision := decision, protocol := protocol, comment := comment }]

/-- Embeds `tat_seconds` (`src/app/main.py`, lines 369-374): zero when
`created_at` fails to parse, otherwise the elapsed seconds from creation to
`vetted_at` (or to "now" when `vetted_at` is absent), clamped at zero. -/
def tat_seconds (createdAt : Option Int) (vettedAt : Option Int) (now : Int) : Int :=
  match createdAt with
  | none => 0
  | some c => max 0 ((vettedAt.getD now) - c)

/-- Embeds the SLA-breach computation of the admin dashboard
(`src/app/main.py`, lines 2519-2527): institution looked up by
`get_institution` without an org filter, SLA hours defaulting to 48 when the
institution is missing, breached iff still pending and TAT exceeds the SLA
window. -/
def admin_dashboard_sla_breached (insts : List Institution) (c : Case) (now : Int) : Bool :=
  let secs := tat_seconds c.createdAt c.vettedAt now
  let inst :=
    match c.institutionId with
    | some instId => get_institution insts instId none
    | none => none
  let slaHours : Nat :=
    match inst with
    | some i => i.slaHours
    | none => 48
  decide (c.status = .pending) && decide (secs > (slaHours : Int) * 3600)

/-- Embeds the SLA-breach computation of the radiologist dashboard
(`src/app/main.py`, lines 3566-3572): `sla_hours` comes from a LEFT JOIN on
`institutions` (so it is absent when the institution row is missing), and the
Python `d.get("sla_hours") or 48` maps both an absent and a zero value to
48. -/
def radiologist_dashboard_sla_breached (joinedSla : Option Nat) (c : Case) (now : Int) : Bool :=
  let secs := tat_seconds c.createdAt c.vettedAt now
  let slaHours : Nat :=
    match joinedSla with
    | some h => if h = 0 then 48 else h
    | none => 48
  decide (c.status = .pending) && decide (secs > (slaHours : Int) * 3600)

/-- The LEFT JOIN `cases c LEFT JOIN institutions i ON c.institution_id = i.id`
projection of `i.sla_hours` used by the radiologist dashboard query
(`src/app/main.py`, line 3534); no org filter is applied to the join. -/
def left_join_sla (insts : List Institution) (c : Case) : Option Nat :=
  c.institutionId.bind (fun instId => (insts.find? (fun i => decide (i.id = instId))).map (·.slaHours))

/-- SQL `LIKE 'p%'` for a wildcard-free stem `p`: the row value starts with
the stem. Stated on the character lists of the strings. -/
def sqlLikeStem (stem s : String) : Bool :=
  stem.data.isPrefixOf s.data

/-- The numeric suffix of a case id: Python
`str(case_id).rsplit("-", 1)[-1]` followed by `isdigit()`/`int()`
(`src/app/main.py`, lines 109-111). -/
def numericSuffix (id : String) : Option Nat :=
  pyToNat? (afterLastDash id)

/-- Python `f"{n:04d}"` for a non-negative value: decimal digits left-padded
with zeros to at least four characters. -/
def pad4 (n : Nat) : String :=
  let s := toString n
  if s.length ≥ 4 then s else String.mk (List.replicate (4 - s.length) '0') ++ s

/-- The loop of `generate_case_ids` over the ids returned by the LIKE query
(`src/app/main.py`, lines 104-111): skip an empty id or one without a dash,
otherwise take the max of the numeric suffixes, starting from zero. -/
def scanMaxSeq (rows : List String) : Nat :=
  rows.foldl
    (fun acc id =>
      if id = "" ∨ ¬ ('-' ∈ id.data) then acc
      else
        match numericSuffix id with
        | some n => max acc n
        | none => acc)
    0

/-- Embeds `generate_case_ids` (`src/app/main.py`, lines 92-113).
`dayStr` is the UTC date prefix `YYYYMMDD`; the query
`SELECT id FROM cases WHERE id LIKE 'dayStr-%'` scans the whole `cases`
table with no org filter, and `scanMaxSeq` replays the loop over its rows. -/
def generate_case_ids (count : Int) (dayStr : String) (cases : List Case) : List String :=
  let total : Nat := (max 1 count).toNat
  let maxSeq : Nat :=
    scanMaxSeq ((cases.filter (fun c => sqlLikeStem (dayStr ++ "-") c.id)).map (·.id))
  (List.range total).map (fun idx => dayStr ++ "-" ++ pad4 (maxSeq + idx + 1))

/-- Embeds `generate_case_id` (`src/app/main.py`, lines 87-89). -/
def generate_case_id (dayStr : String) (cases : List Case) : String :=
  (generate_case_ids 1 dayStr cases).headD ""

/-- Embeds the case-row query of `admin_dashboard` (`src/app/main.py`,
lines 2426-2431), restricted to the tenant scoping: the `c.org_id = ?`
filter is appended exactly when the principal has a truthy org id and is not
a superuser. Tab/search filters and sorting are presentation and elided. -/
def admin_dashboard_cases (u : User) (db : List Case) : List Case :=
  if u.orgId.isSome ∧ u.isSuperuser = false then
    db.filter (fun c => decide (c.orgId = u.orgId))
  else db

/-- Embeds `admin_case_view` (`src/app/main.py`, lines 2967-3023), reduced to
the data it returns about the case: an org-filtered primary-key lookup for a
scoped non-superuser, an unfiltered one otherwise; a missing row surfaces as
404 "Case not found". A failed `require_admin` redirects to the login page. -/
def admin_case_view (u : User) (db : List Case) (caseId : String) : Except HttpError Case :=
  if require_admin u = false then .error ⟨303, "/login"⟩
  else
    match
      (if u.orgId.isSome ∧ u.isSuperuser = false then
        db.find? (fun c => decide (c.id = caseId ∧ c.orgId = u.orgId))
      else
        db.find? (fun c => decide (c.id = caseId))) with
    | none => .error ⟨404, "Case not found"⟩
    | some c => .ok c

/-- Form fields of the admin `POST /submit` handler (`src/app/main.py`,
lines 4434-4452), restricted to the columns the model carries. The
attachment is represented by its filename. -/
structure SubmitForm where
  patientFirstName : String
  patientSurname : String
  patientReferralId : String
  institutionId : String
  orgIdForm : String
  studyDescription : String
  adminNotes : String
  radiologist : String
  attachmentFilename : Option String
deriving DecidableEq, Repr

/-- Embeds `submit_case` (`src/app/main.py`, lines 4434-4603) for the
primary case of a submission (the extra-study loop repeats the same INSERT
shape). `newId` stands for the id the handler obtains from
`generate_case_ids`, `now` for `utc_now_iso()`, `validRads` for the names
returned by `list_radiologists(org_id)`. The INSERT writes `status =
'pending'` and `vetted_at = NULL`; no `case_events` row is written by this
handler. -/
def submit_case (u : User) (insts : List Institution) (validRads : List String)
    (db : List Case) (events : List CaseEvent) (newId : String) (form : SubmitForm)
    (now : Int) : Except HttpError (List Case × List CaseEvent) :=
  if require_admin u = false then .error ⟨403, "Admin only"⟩
  else if u.isSuperuser = false ∧ u.orgId = none then
    .error ⟨403, "Organisation access required"⟩
  else
    match pyToNat? form.institutionId with
    | none => .error ⟨400, "Invalid institution ID"⟩
    | some instId =>
      match get_institution insts instId u.orgId with
      | none => .error ⟨400, "Invalid institution selection"⟩
      | some inst =>
        let orgEff : Option Nat :=
          if u.isSuperuser then
            match inst.orgId with
            | some instOrg => some instOrg
            | none =>
              if (pyStrip form.orgIdForm) ≠ "" then
                match pyToNat? (pyStrip form.orgIdForm) with
                | some n => some n
                | none => u.orgId
              else u.orgId
          else u.orgId
        let rad := (pyStrip form.radiologist)
        if rad ≠ "" ∧ rad ∉ validRads then .error ⟨400, "Invalid radiologist selection"⟩
        else if form.attachmentFilename.getD "" = "" then
          .error ⟨400, "Attachment is required"⟩
        else
          .ok (db ++ [{ id := newId, orgId := orgEff, createdAt := some now,
                        patientFirstName := (pyStrip form.patientFirstName),
                        patientSurname := (pyStrip form.patientSurname),
                        patientReferralId := (pyStrip form.patientReferralId),
                        institutionId := some instId,
                        studyDescription := (pyStrip form.studyDescription),
                        adminNotes := some (pyStrip form.adminNotes),
                        radiologist := some rad,
                        status := .pending, decision := none, decisionComment := none,
                        protocol := none, contrastRequired := none, contrastDetails := none,
                        vettedAt := none }], events)

/-- Python `old_rad or 'unassigned'` on the nullable `radiologist` column. -/
def orUnassigned (r : Option String) : String :=
  match r with
  | none => "unassigned"
  | some s => if s = "" then "unassigned" else s

/-- Embeds `assign_radiologist` (`src/app/main.py`, lines 3403-3442):
org-filtered lookup for a scoped non-superuser (missing row surfaces as 404),
radiologist-name validation against `list_radiologists(org_id)`, an UPDATE of
the `radiologist` column (empty name stored as NULL), and one ASSIGNED event
carrying the case's org id and an old-to-new comment. -/
def assign_radiologist (u : User) (validRads : List String) (db : List Case)
    (events : List CaseEvent) (caseId : String) (radiologist : String) (now : Int) :
    Except HttpError (List Case × List CaseEvent) :=
  if require_admin u = false then .error ⟨403, "Admin only"⟩
  else
    let rad := (pyStrip radiologist)
    match
      (if u.orgId.isSome ∧ u.isSuperuser = false then
        db.find? (fun c => decide (c.id = caseId ∧ c.orgId = u.orgId))
      else
        db.find? (fun c => decide (c.id = caseId))) with
    | none => .error ⟨404, "Case not found"⟩
    | some c =>
      if rad ≠ "" ∧ rad ∉ validRads then .error ⟨400, "Invalid radiologist selection"⟩
      else
        .ok (db.map (fun c' =>
              if c'.id = caseId then
                { c' with radiologist := if rad = "" then none else some rad }
              else c'),
             insert_case_event events caseId c.orgId "ASSIGNED" (some u) now
               none none (some (orUnassigned c.radiologist ++ " -> " ++
                 (if rad = "" then "unassigned" else rad))))

/-- Form fields of `POST /vet/{case_id}` (`src/app/main.py`, lines
4751-4760). -/
structure VetForm where
  protocol : String
  decision : String
  decisionComment : String
  contrastRequired : String
  contrastDetails : String
deriving DecidableEq, Repr

/-- Embeds `vet_submit` (`src/app/main.py`, lines 4751-4824): decision must
be one of `DECISIONS`; Reject requires a non-empty comment and blanks the
protocol, the Approve variants require a non-empty protocol; the case lookup
is org-filtered when the radiologist has a truthy org id; the assigned
reviewer must match. The UPDATE sets the status, decision fields and
`vetted_at = now` unconditionally — the case's current status is never read
or checked — and one VETTED event is appended. -/
def vet_submit (u : User) (db : List Case) (events : List CaseEvent) (caseId : String)
    (form : VetForm) (now : Int) : Except HttpError (List Case × List CaseEvent) :=
  if require_radiologist u = false then .error ⟨403, "Radiologist only"⟩
  else if form.decision ∉ DECISIONS then .error ⟨400, "Invalid decision"⟩
  else if form.decision = "Reject" ∧ (pyStrip form.decisionComment) = "" then
    .error ⟨400, "Comment is required when rejecting a case"⟩
  else if form.decision ≠ "Reject" ∧ (pyStrip form.protocol) = "" then
    .error ⟨400, "Protocol is required for approved cases"⟩
  else
    let protocolEff := if form.decision = "Reject" then "" else form.protocol
    match
      (if u.orgId.isSome then
        db.find? (fun c => decide (c.id = caseId ∧ c.orgId = u.orgId))
      else
        db.find? (fun c => decide (c.id = caseId))) with
    | none => .error ⟨404, "Case not found"⟩
    | some c =>
      if c.radiologist ≠ u.radiologistName then .error ⟨403, "Not your case"⟩
      else
        let caseStatus : Status := if form.decision = "Reject" then .rejected else .vetted
        .ok (db.map (fun c' =>
              if c'.id = caseId then
                { c' with status := caseStatus,
                          protocol := some (pyStrip protocolEff),
                          decision := some form.decision,
                          decisionComment := some (pyStrip form.decisionComment),
                          vettedAt := some now,
                          contrastRequired :=
                            if (pyStrip form.contrastRequired) = "" then none
                            else some (pyStrip form.contrastRequired),
                          contrastDetails :=
                            if (pyStrip form.contrastDetails) = "" then none
                            else some (pyStrip form.contrastDetails) }
              else c'),
             insert_case_event events caseId u.orgId "VETTED" (some u) now
               (some form.decision)
               (if (pyStrip protocolEff) = "" then none else some (pyStrip protocolEff))
               (if (pyStrip form.decisionComment) = "" then none
                else some (pyStrip form.decisionComment)))

/-- Embeds `admin_reopen_case_form` (`src/app/main.py`, lines 3445-3473):
unfiltered lookup, 404 when missing, explicit org check surfacing a
cross-org case as 403 "Access denied", and a redirect back to the case page
(303) when the status is not vetted/rejected; otherwise the case is shown. -/
def admin_reopen_case_form (u : User) (db : List Case) (caseId : String) :
    Except HttpError Case :=
  if require_admin u = false then .error ⟨303, "/login"⟩
  else
    match db.find? (fun c => decide (c.id = caseId)) with
    | none => .error ⟨404, "Case not found"⟩
    | some c =>
      if u.orgId.isSome ∧ c.orgId ≠ u.orgId then .error ⟨403, "Access denied"⟩
      else if c.status ≠ .vetted ∧ c.status ≠ .rejected then
        .error ⟨303, "/admin/case/" ++ caseId⟩
      else .ok c

/-- Embeds `admin_reopen_case_submit` (`src/app/main.py`, lines 3476-3512):
unfiltered lookup, 404 when missing, explicit org check surfacing a
cross-org case as 403 "Access denied"; then — with no check of the case's
current status — the UPDATE sets `status = 'reopened'`, appends the reopen
notes to `admin_notes` under a "[REOPENED]" marker, and NULLs `decision`,
`decision_comment` and `vetted_at`. No REOPENED event is written. -/
def admin_reopen_case_submit (u : User) (db : List Case) (events : List CaseEvent)
    (caseId : String) (reopenNotes : String) : Except HttpError (List Case × List CaseEvent) :=
  if require_admin u = false then .error ⟨303, "/login"⟩
  else
    match db.find? (fun c => decide (c.id = caseId)) with
    | none => .error ⟨404, "Case not found"⟩
    | some c =>
      if u.orgId.isSome ∧ c.orgId ≠ u.orgId then .error ⟨403, "Access denied"⟩
      else
        .ok (db.map (fun c' =>
              if c'.id = caseId then
                { c' with status := .reopened,
                          adminNotes :=
                            some (pyStrip (c.adminNotes.getD "" ++ "\n\n[REOPENED] "
                              ++ reopenNotes)),
                          decision := none, decisionComment := none, vettedAt := none }
              else c'),
             events)

/-- One entry of the edit change summary: Python
`f"{col}: {old_text or '-'} -> {new_text or '-'}"` (`src/app/main.py`,
line 3369). -/
def changeEntry (col old new : String) : String :=
  col ++ ": " ++ (if old = "" then "-" else old) ++ " -> " ++ (if new = "" then "-" else new)

/-- Display form of a nullable text column for the edit diff: Python
`_clean(str(old_val)) if old_val is not None else ""`. -/
def displayOpt (v : Option String) : String := pyStrip (v.getD "")

/-- Display form of the nullable integer `institution_id` column for the
edit diff. -/
def displayNat (v : Option Nat) : String :=
  match v with
  | none => ""
  | some n => pyStrip (toString n)

/-- Form fields of `POST /admin/case/{case_id}/edit` (`src/app/main.py`,
lines 3254-3268), restricted to the columns the model carries (no
date-of-birth, modality or replacement attachment). -/
structure EditForm where
  patientFirstName : String
  patientSurname : String
  patientReferralId : String
  institutionId : String
  studyDescription : String
  adminNotes : String
  radiologist : String
  protocol : String
deriving DecidableEq, Repr

/-- The change-summary entries of `admin_case_edit_save` (`src/app/main.py`,
lines 3360-3369) over the modelled columns, in the order the columns are
collected into `update_fields`; `admin_notes` is skipped as in the source. -/
def editChanges (c : Case) (first surname referral : String) (instId : Option Nat)
    (study rad : String) (proto : Option String) : List String :=
  (if (pyStrip c.patientFirstName) ≠ (pyStrip first) then
    [changeEntry "patient_first_name" (pyStrip c.patientFirstName) (pyStrip first)] else []) ++
  (if (pyStrip c.patientSurname) ≠ (pyStrip surname) then
    [changeEntry "patient_surname" (pyStrip c.patientSurname) (pyStrip surname)] else []) ++
  (if (pyStrip c.patientReferralId) ≠ (pyStrip referral) then
    [changeEntry "patient_referral_id" (pyStrip c.patientReferralId) (pyStrip referral)] else []) ++
  (if displayNat c.institutionId ≠ displayNat instId then
    [changeEntry "institution_id" (displayNat c.institutionId) (displayNat instId)] else []) ++
  (if (pyStrip c.studyDescription) ≠ (pyStrip study) then
    [changeEntry "study_description" (pyStrip c.studyDescription) (pyStrip study)] else []) ++
  (if displayOpt c.radiologist ≠ (pyStrip rad) then
    [changeEntry "radiologist" (displayOpt c.radiologist) (pyStrip rad)] else []) ++
  (if displayOpt c.protocol ≠ displayOpt proto then
    [changeEntry "protocol" (displayOpt c.protocol) (displayOpt proto)] else [])

/-- Embeds `admin_case_edit_save` (`src/app/main.py`, lines 3254-3400):
org-filtered lookup for a scoped non-superuser (missing row surfaces as 404),
the locked-state guard refusing edits of an approved case, the UPDATE of the
editable columns (radiologist kept when the form value is blank; empty
protocol stored as NULL; `status` and `vetted_at` are not among the updated
columns), and one EDITED event whose comment is the change summary plus the
notes. -/
def admin_case_edit_save (u : User) (db : List Case) (events : List CaseEvent)
    (caseId : String) (form : EditForm) (now : Int) :
    Except HttpError (List Case × List CaseEvent) :=
  if require_admin u = false then .error ⟨403, "Not authorized"⟩
  else
    match
      (if u.orgId.isSome ∧ u.isSuperuser = false then
        db.find? (fun c => decide (c.id = caseId ∧ c.orgId = u.orgId))
      else
        db.find? (fun c => decide (c.id = caseId))) with
    | none => .error ⟨404, "Case not found"⟩
    | some c =>
      if c.status = .vetted ∧ c.decision = some "Approve" then
        .error ⟨403, "Cannot edit approved cases"⟩
      else
        let cleanedInst := pyToNat? (pyStrip form.institutionId)
        let cleanedRad :=
          if (pyStrip form.radiologist) = "" then c.radiologist.getD "" else (pyStrip form.radiologist)
        let cleanedProto :=
          if (pyStrip form.protocol) = "" then none else some (pyStrip form.protocol)
        let changes := editChanges c form.patientFirstName form.patientSurname
          form.patientReferralId cleanedInst form.studyDescription cleanedRad cleanedProto
        let summary := if changes.isEmpty then "No field changes"
          else String.intercalate "; " changes
        let comment :=
          if (pyStrip form.adminNotes) ≠ "" then summary ++ ". Notes: " ++ (pyStrip form.adminNotes)
          else summary
        .ok (db.map (fun c' =>
              if c'.id = caseId then
                { c' with patientFirstName := (pyStrip form.patientFirstName),
                          patientSurname := (pyStrip form.patientSurname),
                          patientReferralId := (pyStrip form.patientReferralId),
                          institutionId := cleanedInst,
                          studyDescription := (pyStrip form.studyDescription),
                          adminNotes := some (pyStrip form.adminNotes),
                          radiologist := some cleanedRad,
                          protocol := cleanedProto }
              else c'),
             insert_case_event events caseId (u.orgId.orElse (fun _ => c.orgId)) "EDITED"
               (some u) now none none (some comment))

/-- One successful lifecycle transition on the persistent state
(`cases` table, `case_events` table): a handler invocation that returned its
success value. Arbitrary principals, forms and timestamps are allowed. -/
inductive Step : (List Case × List CaseEvent) → (List Case × List CaseEvent) → Prop where
  | submit (u : User) (insts : List Institution) (validRads : List String)
      (newId : String) (form : SubmitForm) (now : Int)
      {db db' : List Case} {events events' : List CaseEvent}
      (h : submit_case u insts validRads db events newId form now = .ok (db', events')) :
      Step (db, events) (db', events')
  | assign (u : User) (validRads : List String) (caseId radiologist : String) (now : Int)
      {db db' : List Case} {events events' : List CaseEvent}
      (h : assign_radiologist u validRads db events caseId radiologist now = .ok (db', events')) :
      Step (db, events) (db', events')
  | vet (u : User) (caseId : String) (form : VetForm) (now : Int)
      {db db' : List Case} {events events' : List CaseEvent}
      (h : vet_submit u db events caseId form now = .ok (db', events')) :
      Step (db, events) (db', events')
  | reopen (u : User) (caseId reopenNotes : String)
      {db db' : List Case} {events events' : List CaseEvent}
      (h : admin_reopen_case_submit u db events caseId reopenNotes = .ok (db', events')) :
      Step (db, events) (db', events')
  | edit (u : User) (caseId : String) (form : EditForm) (now : Int)
      {db db' : List Case} {events events' : List CaseEvent}
      (h : admin_case_edit_save u db events caseId form now = .ok (db', events')) :
      Step (db, events) (db', events')

/-- States of the persistent store reachable from the empty database by
successful Submit, Assign, Vet, Reopen and Edit transitions. -/
inductive Reachable : (List Case × List CaseEvent) → Prop where
  | init : Reachable ([], [])
  | step {s t : List Case × List CaseEvent} (hs : Reachable s) (hst : Step s t) : Reachable t

/-- The claim-side description of the daily counter: the maximum numeric
suffix among all existing case ids carrying the day's prefix, scanned over
the cases of every organisation. -/
def maxDailySeq (cases : List Case) (dayStr : String) : Nat :=
  (cases.filterMap (fun c =>
    if sqlLikeStem (dayStr ++ "-") c.id then numericSuffix c.id else none)).foldl max 0

/-- An org-admin of organisation 1. -/
def sampleAdmin : User :=
  { id := 1, username := "admin1", role := none, orgRole := some "org_admin",
    orgId := some 1, isSuperuser := false, radiologistName := none }

/-- A radiologist of organisation 1, linked to the display name "Dr A". -/
def sampleRad : User :=
  { id := 2, username := "rad1", role := none, orgRole := some "radiologist",
    orgId := some 1, isSuperuser := false, radiologistName := some "Dr A" }

/-- An org-admin of organisation 2. -/
def sampleOtherAdmin : User :=
  { id := 3, username := "admin2", role := none, orgRole := some "org_admin",
    orgId := some 2, isSuperuser := false, radiologistName := none }

/-- An institution of organisation 1 with a 24-hour SLA. -/
def sampleInst : Institution :=
  { id := 5, name := "Clinic", slaHours := 24, orgId := some 1 }

/-- A submission form for a case at `sampleInst` assigned to "Dr A". -/
def sampleSubmitForm : SubmitForm :=
  { patientFirstName := "Ann", patientSurname := "Lee", patientReferralId := "R1",
    institutionId := "5", orgIdForm := "", studyDescription := "CT Head",
    adminNotes := "", radiologist := "Dr A", attachmentFilename := some "scan.pdf" }

/-- The pending case `submit_case` creates from `sampleSubmitForm` at time 0. -/
def samplePending : Case :=
  { id := "20260101-0001", orgId := some 1, createdAt := some 0,
    patientFirstName := "Ann", patientSurname := "Lee", patientReferralId := "R1",
    institutionId := some 5, studyDescription := "CT Head", adminNotes := some "",
    radiologist := some "Dr A", status := .pending, decision := none,
    decisionComment := none, protocol := none, contrastRequired := none,
    contrastDetails := none, vettedAt := none }

/-- An Approve vetting form. -/
def sampleVetForm : VetForm :=
  { protocol := "CT with contrast", decision := "Approve", decisionComment := "",
    contrastRequired := "", contrastDetails := "" }

/-- The case `vet_submit` produces from `samplePending` with `sampleVetForm`
at time 90000 (25 hours after creation). -/
def sampleVetted : Case :=
  { samplePending with
    status := .vetted, protocol := some "CT with contrast",
    decision := some "Approve", decisionComment := some "", vettedAt := some 90000 }

/-- The VETTED event `vet_submit` appends for that vetting. -/
def sampleVetEvent : CaseEvent :=
  { caseId := "20260101-0001", orgId := some 1, eventType := "VETTED", createdAt := 90000,
    userId := some 2, username := some "rad1", orgRole := some "radiologist",
    decision := some "Approve", protocol := some "CT with contrast", comment := none }

/-- The case produced by reopening `sampleVetted` with notes "second look". -/
def sampleReopened : Case :=
  { sampleVetted with
    status := .reopened, adminNotes := some "[REOPENED] second look",
    decision := none, decisionComment := none, vettedAt := none }

/-- A second, different vetting form (Approve with comment). -/
def sampleVetForm2 : VetForm :=
  { protocol := "MRI protocol", decision := "Approve with comment",
    decisionComment := "use contrast", contrastRequired := "", contrastDetails := "" }

/-- The case produced by vetting `sampleVetted` a second time with
`sampleVetForm2` at time 90060: the first decision is overwritten. -/
def sampleDoubleVetted : Case :=
  { sampleVetted with
    protocol := some "MRI protocol", decision := some "Approve with comment",
    decisionComment := some "use contrast", vettedAt := some 90060 }

/-- The second VETTED event appended by that second vetting. -/
def sampleVetEvent2 : CaseEvent :=
  { sampleVetEvent with
    createdAt := 90060, decision := some "Approve with comment",
    protocol := some "MRI protocol", comment := some "use contrast" }

/-- The case produced by reopening the never-vetted `samplePending` with
notes "why". -/
def samplePendingReopened : Case :=
  { samplePending with
    status := .reopened, adminNotes := some "[REOPENED] why",
    decision := none, decisionComment := none, vettedAt := none }

/-- A non-superuser of organisation 1 holding both the radiologist
membership role and the legacy admin role; such a principal passes both
`require_admin` and `require_radiologist`. -/
def sampleDualRole : User :=
  { id := 6, username := "dual1", role := some "admin", orgRole := some "radiologist",
    orgId := some 1, isSuperuser := false, radiologistName := some "Dr A" }

/-- A pending case belonging to organisation 2. -/
def sampleOtherOrgCase : Case :=
  { samplePending with id := "20260101-0002", orgId := some 2 }

/-- An edit form repeating the sample case's fields. -/
def sampleEditForm : EditForm :=
  { patientFirstName := "Ann", patientSurname := "Lee", patientReferralId := "R1",
    institutionId := "5", studyDescription := "CT Head", adminNotes := "",
    radiologist := "", protocol := "" }

/-- A Reject form with a whitespace-only comment. -/
def sampleRejectNoComment : VetForm :=
  { protocol := "", decision := "Reject", decisionComment := "  ",
    contrastRequired := "", contrastDetails := "" }

/-- An Approve form with a whitespace-only protocol. -/
def sampleApproveNoProtocol : VetForm :=
  { protocol := "  ", decision := "Approve", decisionComment := "",
    contrastRequired := "", contrastDetails := "" }

/-- A valid Reject form. -/
def sampleRejectForm : VetForm :=
  { protocol := "CT Head protocol", decision := "Reject",
    decisionComment := "not justified", contrastRequired := "", contrastDetails := "" }

lemma submit_case_ok_cases {u : User} {insts : List Institution} {validRads : List String}
    {db db' : List Case} {events events' : List CaseEvent} {newId : String}
    {form : SubmitForm} {now : Int}
    (h : submit_case u insts validRads db events newId form now = .ok (db', events')) :
    ∀ c' ∈ db', c' ∈ db ∨ (c'.status = .pending ∧ c'.vettedAt = none) := by
  unfold submit_case at h
  repeat' (first | (exact Except.noConfusion h) | split at h | (dsimp only at h))
  all_goals
    simp only [Except.ok.injEq, Prod.mk.injEq] at h
    obtain ⟨hdb, -⟩ := h
    subst hdb
    intro c' hc'
    rcases List.mem_append.1 hc' with hmem | hnew
    · exact Or.inl hmem
    · right
      simp only [List.mem_singleton] at hnew
      subst hnew
      exact ⟨rfl, rfl⟩

lemma assign_radiologist_ok_cases {u : User} {validRads : List String}
    {db db' : List Case} {events events' : List CaseEvent} {caseId radiologist : String}
    {now : Int}
    (h : assign_radiologist u validRads db events caseId radiologist now = .ok (db', events')) :
    ∀ c' ∈ db', ∃ c ∈ db, c'.status = c.status ∧ c'.vettedAt = c.vettedAt := by
  unfold assign_radiologist at h
  repeat' (first | (exact Except.noConfusion h) | split at h | (dsimp only at h))
  all_goals
    simp only [Except.ok.injEq, Prod.mk.injEq] at h
    obtain ⟨hdb, -⟩ := h
    subst hdb
    intro c' hc'
    rcases List.mem_map.1 hc' with ⟨c, hc, rfl⟩
    by_cases hid : c.id = caseId <;>
      exact ⟨c, hc, by simp [hid], by simp [hid]⟩

lemma vet_submit_ok_cases {u : User} {db db' : List Case} {events events' : List CaseEvent}
    {caseId : String} {form : VetForm} {now : Int}
    (h : vet_submit u db events caseId form now = .ok (db', events')) :
    ∀ c' ∈ db', c' ∈ db ∨ ((c'.status = .vetted ∨ c'.status = .rejected) ∧ c'.vettedAt ≠ none) := by
  unfold vet_submit at h
  repeat' (first | (exact Except.noConfusion h) | split at h | (dsimp only at h))
  all_goals
    simp only [Except.ok.injEq, Prod.mk.injEq] at h
    obtain ⟨hdb, -⟩ := h
    subst hdb
    intro c' hc'
    rcases List.mem_map.1 hc' with ⟨c, hc, rfl⟩
    by_cases hid : c.id = caseId
    · right
      constructor
      · by_cases hr : form.decision = "Reject" <;> simp [hid, hr]
      · simp [hid]
    · left
      simpa [hid] using hc

lemma admin_reopen_case_submit_ok_cases {u : User} {db db' : List Case}
    {events events' : List CaseEvent} {caseId reopenNotes : String}
    (h : admin_reopen_case_submit u db events caseId reopenNotes = .ok (db', events')) :
    ∀ c' ∈ db', c' ∈ db ∨ (c'.status = .reopened ∧ c'.vettedAt = none) := by
  unfold admin_reopen_case_submit at h
  repeat' (first | (exact Except.noConfusion h) | split at h | (dsimp only at h))
  all_goals
    simp only [Except.ok.injEq, Prod.mk.injEq] at h
    obtain ⟨hdb, -⟩ := h
    subst hdb
    intro c' hc'
    rcases List.mem_map.1 hc' with ⟨c, hc, rfl⟩
    by_cases hid : c.id = caseId
    · right; simp [hid]
    · left; simpa [hid] using hc

lemma admin_case_edit_save_ok_cases {u : User} {db db' : List Case}
    {events events' : List CaseEvent} {caseId : String} {form : EditForm} {now : Int}
    (h : admin_case_edit_save u db events caseId form now = .ok (db', events')) :
    ∀ c' ∈ db', ∃ c ∈ db, c'.status = c.status ∧ c'.vettedAt = c.vettedAt := by
  unfold admin_case_edit_save at h
  repeat' (first | (exact Except.noConfusion h) | split at h | (dsimp only at h))
  all_goals
    simp only [Except.ok.injEq, Prod.mk.injEq] at h
    obtain ⟨hdb, -⟩ := h
    subst hdb
    intro c' hc'
    rcases List.mem_map.1 hc' with ⟨c, hc, rfl⟩
    by_cases hid : c.id = caseId <;>
      exact ⟨c, hc, by simp [hid], by simp [hid]⟩

lemma sqlLikeStem_dash {p s : String} (h : sqlLikeStem (p ++ "-") s = true) :
    s ≠ "" ∧ '-' ∈ s.data := by
  unfold sqlLikeStem at h
  rw [ List.isPrefixOf_iff_prefix, String.data_append,
    show ("-" : String).data = ['-'] from rfl] at h
  refine ⟨?_, h.subset (List.mem_append_right _ (List.mem_singleton_self _))⟩
  intro hs
  subst hs
  rw [show ("" : String).data = ([] : List Char) from rfl, List.prefix_nil] at h
  exact absurd h (by simp)

lemma scanMaxSeq_go (l : List String) (hl : ∀ id ∈ l, id ≠ "" ∧ '-' ∈ id.data) :
    ∀ acc : Nat,
      l.foldl
        (fun acc id =>
          if id = "" ∨ ¬ ('-' ∈ id.data) then acc
          else
            match numericSuffix id with
            | some n => max acc n
            | none => acc)
        acc
      = (l.filterMap numericSuffix).foldl max acc := by
  induction l with
  | nil => intro acc; rfl
  | cons a t ih =>
    intro acc
    obtain ⟨ha1, ha2⟩ := hl a (List.mem_cons_self a t)
    have ht : ∀ id ∈ t, id ≠ "" ∧ '-' ∈ id.data :=
      fun id hid => hl id (List.mem_cons_of_mem a hid)
    simp only [List.foldl_cons, List.filterMap_cons]
    rw [if_neg (by simp [ha1, ha2])]
    cases hsuf : numericSuffix a with
    | none => exact ih ht acc
    | some n => simp only [List.foldl_cons]; exact ih ht (max acc n)

lemma filterMap_suffixes_eq (cases : List Case) (dayStr : String) :
    List.filterMap numericSuffix
        ((cases.filter (fun c => sqlLikeStem (dayStr ++ "-") c.id)).map (·.id))
      = cases.filterMap
          (fun c => if sqlLikeStem (dayStr ++ "-") c.id then numericSuffix c.id else none) := by
  induction cases with
  | nil => rfl
  | cons c t ih =>
    by_cases hc : sqlLikeStem (dayStr ++ "-") c.id = true
    · simp only [List.filter_cons, hc, if_true, List.map_cons, List.filterMap_cons, ih]
    · simp [List.filter_cons, hc, List.filterMap_cons, ih]

lemma scanMaxSeq_eq_maxDailySeq (cases : List Case) (dayStr : String) :
    scanMaxSeq ((cases.filter (fun c => sqlLikeStem (dayStr ++ "-") c.id)).map (·.id))
      = maxDailySeq cases dayStr := by
  unfold scanMaxSeq maxDailySeq
  have hl : ∀ id ∈ (cases.filter (fun c => sqlLikeStem (dayStr ++ "-") c.id)).map (·.id),
      id ≠ "" ∧ '-' ∈ id.data := by
    intro id hid
    rcases List.mem_map.1 hid with ⟨c, hc, rfl⟩
    exact sqlLikeStem_dash (by simpa using (List.mem_filter.1 hc).2)
  rw [scanMaxSeq_go _ hl 0, filterMap_suffixes_eq]

lemma generate_case_ids_formula (count : Int) (dayStr : String) (cases : List Case) :
    generate_case_ids count dayStr cases =
      (List.range (max 1 count).toNat).map
        (fun idx => dayStr ++ "-" ++ pad4 (maxDailySeq cases dayStr + idx + 1)) := by
  unfold generate_case_ids
  rw [scanMaxSeq_eq_maxDailySeq]

/-- Claim C10: a new case id is the day prefix joined to a 4-digit
zero-padded sequence number equal to one plus the maximum numeric suffix
among all existing cases carrying that day's prefix, with the scan shared by
every organisation (changing every case's `org_id` arbitrarily does not
change the generated ids), and a batch request for `count` ids returns
`max 1 count` consecutive ids starting from that next sequence number. -/
theorem C10_generate_case_ids (count : Int) (dayStr : String) (cases : List Case) :
    generate_case_ids count dayStr cases =
      (List.range (max 1 count).toNat).map
        (fun idx => dayStr ++ "-" ++ pad4 (maxDailySeq cases dayStr + idx + 1)) ∧
    (generate_case_ids count dayStr cases).length = (max 1 count).toNat ∧
    (∀ orgOf : Case → Option Nat,
      generate_case_ids count dayStr (cases.map (fun c => { c with orgId := orgOf c }))
        = generate_case_ids count dayStr cases) := by
  refine ⟨generate_case_ids_formula count dayStr cases, ?_, ?_⟩
  · rw [generate_case_ids_formula]
    simp
  · intro orgOf
    rw [generate_case_ids_formula, generate_case_ids_formula]
    have : maxDailySeq (cases.map (fun c => { c with orgId := orgOf c })) dayStr
        = maxDailySeq cases dayStr := by
      unfold maxDailySeq
      rw [List.filterMap_map]
      rfl
    rw [this]

/-- Claim C9: `tat_seconds` always returns a non-negative value, is clamped
to zero when the end timestamp (an explicit `vetted_at` or the "now"
argument) precedes `created_at`, is monotonically non-decreasing in the
"now" argument, and is zero when `vetted_at` equals `created_at`. -/
theorem C9_tat_seconds_arith :
    (∀ (createdAt vettedAt : Option Int) (now : Int),
      0 ≤ tat_seconds createdAt vettedAt now) ∧
    (∀ (c e now : Int), e < c → tat_seconds (some c) (some e) now = 0) ∧
    (∀ (c now : Int), now < c → tat_seconds (some c) none now = 0) ∧
    (∀ (c n₁ n₂ : Int), n₁ ≤ n₂ →
      tat_seconds (some c) none n₁ ≤ tat_seconds (some c) none n₂) ∧
    (∀ (t now : Int), tat_seconds (some t) (some t) now = 0) := by
  refine ⟨?_, ?_, ?_, ?_, ?_⟩
  · intro ca va now
    cases ca with
    | none => simp [tat_seconds]
    | some c => exact le_max_left _ _
  · intro c e now h
    show max 0 ((some e).getD now - c) = 0
    rw [Option.getD_some]
    exact max_eq_left (by omega)
  · intro c now h
    show max 0 ((none : Option Int).getD now - c) = 0
    rw [Option.getD_none]
    exact max_eq_left (by omega)
  · intro c n₁ n₂ h
    show max 0 ((none : Option Int).getD n₁ - c) ≤ max 0 ((none : Option Int).getD n₂ - c)
    rw [Option.getD_none, Option.getD_none]
    exact max_le_max le_rfl (by omega)
  · intro t now
    simp [tat_seconds]

/-- Claim C9 witness: the four guarded parts instantiated at concrete
timestamps. -/
theorem C9_tat_seconds_arith_witness :
    0 ≤ tat_seconds (some 0) (some 5) 9 ∧
    tat_seconds (some 10) (some 3) 0 = 0 ∧
    tat_seconds (some 10) none 3 = 0 ∧
    tat_seconds (some 0) none 50 ≤ tat_seconds (some 0) none 60 ∧
    tat_seconds (some 7) (some 7) 0 = 0 :=
  ⟨C9_tat_seconds_arith.1 (some 0) (some 5) 9,
   C9_tat_seconds_arith.2.1 10 3 0 (by decide),
   C9_tat_seconds_arith.2.2.1 10 3 (by decide),
   C9_tat_seconds_arith.2.2.2.1 0 50 60 (by decide),
   C9_tat_seconds_arith.2.2.2.2 7 0⟩

/-- Claim C8: on both dashboards a case is breached exactly when it is still
pending and its turnaround seconds exceed the institution's configured SLA
hours times 3600; a non-pending (vetted/rejected/reopened) case is never
breached; and the fixed 48-hour fallback replaces the configured value when
the institution (or, on the radiologist path, its joined `sla_hours`) is
absent. The radiologist-path equation assumes the configured value is
positive, which the settings handlers enforce (1-999). -/
theorem C8_sla_breach_def (insts : List Institution) (c : Case) (now : Int) :
    (c.status ≠ .pending →
      admin_dashboard_sla_breached insts c now = false ∧
      radiologist_dashboard_sla_breached (left_join_sla insts c) c now = false) ∧
    (∀ instId inst, c.institutionId = some instId →
      get_institution insts instId none = some inst →
      admin_dashboard_sla_breached insts c now =
        (decide (c.status = .pending) &&
          decide ((inst.slaHours : Int) * 3600 < tat_seconds c.createdAt c.vettedAt now))) ∧
    ((c.institutionId = none ∨
        ∃ instId, c.institutionId = some instId ∧ get_institution insts instId none = none) →
      admin_dashboard_sla_breached insts c now =
        (decide (c.status = .pending) &&
          decide ((48 : Int) * 3600 < tat_seconds c.createdAt c.vettedAt now))) ∧
    (∀ h, left_join_sla insts c = some h → 0 < h →
      radiologist_dashboard_sla_breached (left_join_sla insts c) c now =
        (decide (c.status = .pending) &&
          decide ((h : Int) * 3600 < tat_seconds c.createdAt c.vettedAt now))) ∧
    (left_join_sla insts c = none →
      radiologist_dashboard_sla_breached (left_join_sla insts c) c now =
        (decide (c.status = .pending) &&
          decide ((48 : Int) * 3600 < tat_seconds c.createdAt c.vettedAt now))) := by
  refine ⟨?_, ?_, ?_, ?_, ?_⟩
  · intro hst
    constructor
    · simp [admin_dashboard_sla_breached, hst]
    · simp [radiologist_dashboard_sla_breached, hst]
  · intro instId inst h1 h2
    simp [admin_dashboard_sla_breached, h1, h2]
  · intro h
    unfold admin_dashboard_sla_breached
    rcases h with h1 | ⟨instId, h1, h2⟩
    · rw [h1]
      norm_num
    · rw [h1]
      dsimp only
      rw [h2]
      norm_num
  · intro h hsla hpos
    rw [hsla]
    simp [radiologist_dashboard_sla_breached, Nat.pos_iff_ne_zero.mp hpos]
  · intro hsla
    rw [hsla]
    simp [radiologist_dashboard_sla_breached]

/-- Claim C8 witness: the spec scenario — a case submitted at time 0 against
a 24-hour-SLA institution is breached at 25 hours while pending, and its
vetted counterpart is not breached. -/
theorem C8_sla_breach_def_witness :
    samplePending.institutionId = some 5 ∧
    get_institution [sampleInst] 5 none = some sampleInst ∧
    admin_dashboard_sla_breached [sampleInst] samplePending 90000 =
      (decide (samplePending.status = .pending) &&
        decide ((sampleInst.slaHours : Int) * 3600 <
          tat_seconds samplePending.createdAt samplePending.vettedAt 90000)) ∧
    admin_dashboard_sla_breached [sampleInst] samplePending 90000 = true ∧
    sampleVetted.status ≠ .pending ∧
    admin_dashboard_sla_breached [sampleInst] sampleVetted 90000 = false :=
  ⟨rfl, by decide,
   (C8_sla_breach_def [sampleInst] samplePending 90000).2.1 5 sampleInst rfl (by decide),
   by decide,
   by decide,
   ((C8_sla_breach_def [sampleInst] sampleVetted 90000).1 (by decide)).1⟩

lemma pyStrip_empty : pyStrip "" = "" := rfl

/-- Claim C7: a successful Reopen by an org_admin on a case the handler
finds (with a matching organisation) sets the status to reopened, clears
`decision` and `decision_comment`, NULLs `vetted_at`, and appends the
supplied notes to the admin notes under the "[REOPENED]" marker; every other
column of every case row is left unchanged, as is the event log. -/
theorem C7_reopen_effects (u : User) (db : List Case) (events : List CaseEvent)
    (caseId reopenNotes : String) (c : Case)
    (hrole : u.orgRole = some "org_admin")
    (hfind : db.find? (fun c' => decide (c'.id = caseId)) = some c)
    (horg : u.orgId.isSome → c.orgId = u.orgId)
    (_hst : c.status = .vetted ∨ c.status = .rejected) :
    admin_reopen_case_submit u db events caseId reopenNotes =
      .ok (db.map (fun c' =>
            if c'.id = caseId then
              { c' with status := .reopened,
                        adminNotes := some (pyStrip (c.adminNotes.getD ""
                          ++ "\n\n[REOPENED] " ++ reopenNotes)),
                        decision := none, decisionComment := none, vettedAt := none }
            else c'),
          events) := by
  have hadm : require_admin u = true := by simp [require_admin, hrole]
  unfold admin_reopen_case_submit
  rw [if_neg (by simp [hadm]), hfind]
  dsimp only
  rw [if_neg (fun hcon => hcon.2 (horg hcon.1))]

/-- Claim C7 witness: reopening the vetted sample case. -/
theorem C7_reopen_effects_witness :
    (sampleVetted.status = .vetted ∨ sampleVetted.status = .rejected) ∧
    admin_reopen_case_submit sampleAdmin [sampleVetted] [sampleVetEvent] "20260101-0001"
        "second look"
      = .ok ([sampleVetted].map (fun c' =>
            if c'.id = "20260101-0001" then
              { c' with status := .reopened,
                        adminNotes := some (pyStrip (sampleVetted.adminNotes.getD ""
                          ++ "\n\n[REOPENED] " ++ "second look")),
                        decision := none, decisionComment := none, vettedAt := none }
            else c'),
          [sampleVetEvent]) :=
  ⟨Or.inl rfl,
   C7_reopen_effects sampleAdmin [sampleVetted] [sampleVetEvent] "20260101-0001" "second look"
     sampleVetted rfl rfl (fun _ => rfl) (Or.inl rfl)⟩

/-- Claim C5: vetting validation and effects, for the assigned reviewer of a
case the handler finds in the reviewer's organisation. A Reject with an
empty (whitespace-only) comment fails with the comment-required error and
changes nothing; Reject with a non-empty comment succeeds, sets status
rejected and blanks the stored protocol; the Approve variants with an empty
protocol fail with the protocol-required error; with a non-empty protocol
they succeed, set status vetted, the decision fields and `vetted_at = now`. -/
theorem C5_vet_validation (u : User) (db : List Case) (events : List CaseEvent)
    (caseId : String) (now : Int) (o : Nat) (c : Case)
    (hrole : require_radiologist u = true)
    (horg : u.orgId = some o)
    (hfind : db.find? (fun c' => decide (c'.id = caseId ∧ c'.orgId = some o)) = some c)
    (hrad : c.radiologist = u.radiologistName) :
    (∀ form : VetForm, form.decision = "Reject" → pyStrip form.decisionComment = "" →
      vet_submit u db events caseId form now =
        .error ⟨400, "Comment is required when rejecting a case"⟩) ∧
    (∀ form : VetForm, form.decision = "Reject" → pyStrip form.decisionComment ≠ "" →
      vet_submit u db events caseId form now =
        .ok (db.map (fun c' =>
              if c'.id = caseId then
                { c' with status := .rejected, protocol := some "",
                          decision := some "Reject",
                          decisionComment := some (pyStrip form.decisionComment),
                          vettedAt := some now,
                          contrastRequired :=
                            if pyStrip form.contrastRequired = "" then none
                            else some (pyStrip form.contrastRequired),
                          contrastDetails :=
                            if pyStrip form.contrastDetails = "" then none
                            else some (pyStrip form.contrastDetails) }
              else c'),
            insert_case_event events caseId u.orgId "VETTED" (some u) now (some "Reject")
              none (some (pyStrip form.decisionComment)))) ∧
    (∀ form : VetForm, form.decision ∈ DECISIONS → form.decision ≠ "Reject" →
      pyStrip form.protocol = "" →
      vet_submit u db events caseId form now =
        .error ⟨400, "Protocol is required for approved cases"⟩) ∧
    (∀ form : VetForm, form.decision ∈ DECISIONS → form.decision ≠ "Reject" →
      pyStrip form.protocol ≠ "" →
      vet_submit u db events caseId form now =
        .ok (db.map (fun c' =>
              if c'.id = caseId then
                { c' with status := .vetted, protocol := some (pyStrip form.protocol),
                          decision := some form.decision,
                          decisionComment := some (pyStrip form.decisionComment),
                          vettedAt := some now,
                          contrastRequired :=
                            if pyStrip form.contrastRequired = "" then none
                            else some (pyStrip form.contrastRequired),
                          contrastDetails :=
                            if pyStrip form.contrastDetails = "" then none
                            else some (pyStrip form.contrastDetails) }
              else c'),
            insert_case_event events caseId u.orgId "VETTED" (some u) now
              (some form.decision) (some (pyStrip form.protocol))
              (if pyStrip form.decisionComment = "" then none
               else some (pyStrip form.decisionComment)))) := by
  have hfind' : List.find?
      (fun c' => decide (c'.id = caseId) && decide (c'.orgId = some o)) db = some c := by
    simpa using hfind
  refine ⟨?_, ?_, ?_, ?_⟩
  · intro form h1 h2
    simp [vet_submit, hrole, DECISIONS, h1, h2]
  · intro form h1 h2
    simp [vet_submit, hrole, DECISIONS, h1, h2, horg, hfind', hrad, pyStrip_empty]
  · intro form h1 h2 h3
    simp [vet_submit, hrole, h1, h2, h3]
  · intro form h1 h2 h3
    simp [vet_submit, hrole, h1, h2, h3, horg, hfind', hrad]

/-- Claim C5 witness: the validation errors and the Reject effect evaluated
on the sample pending case. -/
theorem C5_vet_validation_witness :
    vet_submit sampleRad [samplePending] [] "20260101-0001" sampleRejectNoComment 90000
      = .error ⟨400, "Comment is required when rejecting a case"⟩ ∧
    vet_submit sampleRad [samplePending] [] "20260101-0001" sampleApproveNoProtocol 90000
      = .error ⟨400, "Protocol is required for approved cases"⟩ ∧
    vet_submit sampleRad [samplePending] [] "20260101-0001" sampleRejectForm 90000
      = .ok ([samplePending].map (fun c' =>
            if c'.id = "20260101-0001" then
              { c' with status := .rejected, protocol := some "",
                        decision := some "Reject",
                        decisionComment := some (pyStrip sampleRejectForm.decisionComment),
                        vettedAt := some 90000,
                        contrastRequired :=
                          if pyStrip sampleRejectForm.contrastRequired = "" then none
                          else some (pyStrip sampleRejectForm.contrastRequired),
                        contrastDetails :=
                          if pyStrip sampleRejectForm.contrastDetails = "" then none
                          else some (pyStrip sampleRejectForm.contrastDetails) }
            else c'),
          insert_case_event [] "20260101-0001" sampleRad.orgId "VETTED" (some sampleRad)
            90000 (some "Reject") none (some (pyStrip sampleRejectForm.decisionComment))) :=
  ⟨(C5_vet_validation sampleRad [samplePending] [] "20260101-0001" 90000 1 samplePending
      rfl rfl rfl rfl).1 sampleRejectNoComment rfl (by decide),
   (C5_vet_validation sampleRad [samplePending] [] "20260101-0001" 90000 1 samplePending
      rfl rfl rfl rfl).2.2.1 sampleApproveNoProtocol (by decide) (by decide) (by decide),
   (C5_vet_validation sampleRad [samplePending] [] "20260101-0001" 90000 1 samplePending
      rfl rfl rfl rfl).2.1 sampleRejectForm rfl (by decide)⟩

/-- Claim C4: in every state reachable by any sequence of successful Submit,
Assign, Vet, Reopen and Edit operations, a case's `vetted_at` is non-null
exactly when its status is vetted or rejected. -/
theorem C4_vetted_at_iff_status (s : List Case × List CaseEvent) (h : Reachable s) :
    ∀ c ∈ s.1, c.vettedAt ≠ none ↔ (c.status = .vetted ∨ c.status = .rejected) := by
  induction h with
  | init => intro c hc; exact absurd hc (List.not_mem_nil c)
  | step hs hst ih =>
    cases hst with
    | submit u insts validRads newId form now h =>
      intro c' hc'
      rcases submit_case_ok_cases h c' hc' with hmem | ⟨hst', hv⟩
      · exact ih c' hmem
      · rw [hst', hv]
        simp
    | assign u validRads caseId radiologist now h =>
      intro c' hc'
      obtain ⟨c, hc, hst', hv⟩ := assign_radiologist_ok_cases h c' hc'
      rw [hst', hv]
      exact ih c hc
    | vet u caseId form now h =>
      intro c' hc'
      rcases vet_submit_ok_cases h c' hc' with hmem | ⟨hst', hv⟩
      · exact ih c' hmem
      · exact ⟨fun _ => hst', fun _ => hv⟩
    | reopen u caseId reopenNotes h =>
      intro c' hc'
      rcases admin_reopen_case_submit_ok_cases h c' hc' with hmem | ⟨hst', hv⟩
      · exact ih c' hmem
      · rw [hst', hv]
        simp
    | edit u caseId form now h =>
      intro c' hc'
      obtain ⟨c, hc, hst', hv⟩ := admin_case_edit_save_ok_cases h c' hc'
      rw [hst', hv]
      exact ih c hc

/-- Claim C4 witness: the invariant evaluated on the state reached by one
Submit followed by one Vet. -/
theorem C4_vetted_at_iff_status_witness :
    sampleVetted.vettedAt ≠ none ↔
      (sampleVetted.status = .vetted ∨ sampleVetted.status = .rejected) :=
  C4_vetted_at_iff_status ([sampleVetted], [sampleVetEvent])
    (Reachable.step
      (Reachable.step Reachable.init
        (Step.submit sampleAdmin [sampleInst] ["Dr A"] "20260101-0001" sampleSubmitForm 0 rfl))
      (Step.vet sampleRad "20260101-0001" sampleVetForm 90000 rfl))
    sampleVetted (List.mem_singleton_self _)

/-- Claim C2 (code bug): a successful admin Submit commits the new pending
case with no SUBMITTED event, and a successful Reopen commits the state
change with no REOPENED event — the `case_events` list is returned unchanged
by both, contradicting "every successful lifecycle transition appends
exactly one corresponding event in the same transaction". -/
theorem C2_missing_audit_events :
    submit_case sampleAdmin [sampleInst] ["Dr A"] [] [] "20260101-0001" sampleSubmitForm 0
      = .ok ([samplePending], []) ∧
    admin_reopen_case_submit sampleAdmin [sampleVetted] [sampleVetEvent] "20260101-0001"
        "second look"
      = .ok ([sampleReopened], [sampleVetEvent]) :=
  ⟨rfl, rfl⟩

/-- Claim C3 (code bug): `vet_submit` never reads the case's current status,
so the second of two Vet submissions on the same case also succeeds: it
silently overwrites the first decision and appends a second VETTED event,
instead of failing with a Conflict. -/
theorem C3_second_vet_overwrites :
    vet_submit sampleRad [samplePending] [] "20260101-0001" sampleVetForm 90000
      = .ok ([sampleVetted], [sampleVetEvent]) ∧
    vet_submit sampleRad [sampleVetted] [sampleVetEvent] "20260101-0001" sampleVetForm2 90060
      = .ok ([sampleDoubleVetted], [sampleVetEvent, sampleVetEvent2]) ∧
    sampleDoubleVetted.decision ≠ sampleVetted.decision ∧
    ([sampleVetEvent, sampleVetEvent2].filter (fun e => e.eventType == "VETTED")).length = 2 :=
  ⟨rfl, rfl, by decide, by decide⟩

/-- Claim C6 (code bug): on a pending (never-vetted) case the reopen form
handler answers with a redirect back to the case page (303), not an
invalid-transition error, and the reopen POST handler — which has no status
guard at all — succeeds and moves the case to reopened instead of rejecting
the transition and leaving the case unchanged. -/
theorem C6_reopen_pending_not_rejected :
    admin_reopen_case_form sampleAdmin [samplePending] "20260101-0001"
      = .error ⟨303, "/admin/case/20260101-0001"⟩ ∧
    admin_reopen_case_submit sampleAdmin [samplePending] [] "20260101-0001" "why"
      = .ok ([samplePendingReopened], []) ∧
    samplePendingReopened.status = .reopened :=
  ⟨rfl, rfl, rfl⟩

/-- Claim C1 counterexample: a cross-org reopen attempt is answered with
403 "Access denied" — a status other than 404, so the failure is not
surfaced as "not found" and confirms the existence of the out-of-tenant
record, contradicting the claim that every cross-org attempt is surfaced as
"not found". -/
theorem C1_reopen_reveals_existence :
    admin_reopen_case_submit sampleOtherAdmin [samplePending] [] "20260101-0001" "x"
      = .error ⟨403, "Access denied"⟩ ∧
    (403 : Nat) ≠ 404 :=
  ⟨rfl, by decide⟩

/-- Claim C1 as amended: for a non-superuser principal scoped to `o1` and a
case of a different organisation `o2`, every operation fails without
returning or mutating the case: view, vet, assign and edit surface the
failure as 404 "Case not found", and the case is absent from the dashboard
listing; the reopen handler also refuses, but surfaces the failure as
403 "Access denied" rather than "not found". -/
theorem C1_cross_org_access_blocked
    (u : User) (db : List Case) (events : List CaseEvent) (c : Case) (o1 o2 : Nat)
    (hadm : require_admin u = true)
    (hradrole : require_radiologist u = true)
    (hsup : u.isSuperuser = false)
    (horg : u.orgId = some o1)
    (hc : c ∈ db) (hco : c.orgId = some o2) (hne : o1 ≠ o2)
    (huniq : ∀ c' ∈ db, c'.id = c.id → c' = c) :
    admin_case_view u db c.id = .error ⟨404, "Case not found"⟩ ∧
    (∀ form : VetForm, form.decision ∈ DECISIONS →
      (form.decision = "Reject" → pyStrip form.decisionComment ≠ "") →
      (form.decision ≠ "Reject" → pyStrip form.protocol ≠ "") →
      ∀ now, vet_submit u db events c.id form now = .error ⟨404, "Case not found"⟩) ∧
    (∀ validRads radiologist now,
      assign_radiologist u validRads db events c.id radiologist now
        = .error ⟨404, "Case not found"⟩) ∧
    (∀ reopenNotes,
      admin_reopen_case_submit u db events c.id reopenNotes
        = .error ⟨403, "Access denied"⟩) ∧
    (∀ (form : EditForm) (now : Int),
      admin_case_edit_save u db events c.id form now = .error ⟨404, "Case not found"⟩) ∧
    c ∉ admin_dashboard_cases u db := by
  have hfnone : db.find? (fun c' => decide (c'.id = c.id ∧ c'.orgId = some o1)) = none := by
    rw [List.find?_eq_none]
    intro x hx
    simp only [decide_eq_true_eq, not_and]
    intro hxid
    rw [huniq x hx hxid, hco]
    intro hsome
    exact hne (Option.some.inj hsome).symm
  have hfc : db.find? (fun c' => decide (c'.id = c.id)) = some c := by
    cases hf : db.find? (fun c' => decide (c'.id = c.id)) with
    | none =>
      have := List.find?_eq_none.mp hf c hc
      simp at this
    | some x =>
      have hmem := List.mem_of_find?_eq_some hf
      have hpx := List.find?_some hf
      simp only [decide_eq_true_eq] at hpx
      rw [huniq x hmem hpx]
  refine ⟨?_, ?_, ?_, ?_, ?_, ?_⟩
  · unfold admin_case_view
    rw [if_neg (by simp [hadm]), horg, hsup]
    rw [if_pos ⟨rfl, rfl⟩, hfnone]
  · intro form hdec hrc hrp now
    unfold vet_submit
    rw [if_neg (by simp [hradrole])]
    rw [if_neg (by simpa using hdec)]
    rw [if_neg (fun hcon => hrc hcon.1 hcon.2)]
    rw [if_neg (fun hcon => hrp hcon.1 hcon.2)]
    rw [if_pos (show u.orgId.isSome = true by rw [horg]; rfl)]
    rw [horg, hfnone]
  · intro validRads radiologist now
    unfold assign_radiologist
    rw [if_neg (by simp [hadm]), horg, hsup]
    rw [if_pos ⟨rfl, rfl⟩, hfnone]
  · intro reopenNotes
    unfold admin_reopen_case_submit
    rw [if_neg (by simp [hadm]), hfc]
    dsimp only
    rw [if_pos ⟨by rw [horg]; rfl,
      by rw [hco, horg]; exact fun h => hne (Option.some.inj h).symm⟩]
  · intro form now
    unfold admin_case_edit_save
    rw [if_neg (by simp [hadm]), horg, hsup]
    rw [if_pos ⟨rfl, rfl⟩, hfnone]
  · intro hmem
    unfold admin_dashboard_cases at hmem
    rw [horg, hsup, if_pos ⟨rfl, rfl⟩] at hmem
    have := (List.mem_filter.mp hmem).2
    rw [hco] at this
    simp only [decide_eq_true_eq] at this
    exact hne (Option.some.inj this).symm

/-- Claim C1 witness: the amended isolation statement evaluated for a
non-superuser of organisation 1 (holding both the radiologist role and the
legacy admin role) against a case of organisation 2. -/
theorem C1_cross_org_access_blocked_witness :
    admin_case_view sampleDualRole [sampleOtherOrgCase] "20260101-0002"
      = .error ⟨404, "Case not found"⟩ ∧
    vet_submit sampleDualRole [sampleOtherOrgCase] [] "20260101-0002" sampleRejectForm 0
      = .error ⟨404, "Case not found"⟩ ∧
    assign_radiologist sampleDualRole ["Dr A"] [sampleOtherOrgCase] [] "20260101-0002"
        "Dr A" 0
      = .error ⟨404, "Case not found"⟩ ∧
    admin_reopen_case_submit sampleDualRole [sampleOtherOrgCase] [] "20260101-0002" "x"
      = .error ⟨403, "Access denied"⟩ ∧
    admin_case_edit_save sampleDualRole [sampleOtherOrgCase] [] "20260101-0002"
        sampleEditForm 0
      = .error ⟨404, "Case not found"⟩ ∧
    sampleOtherOrgCase ∉ admin_dashboard_cases sampleDualRole [sampleOtherOrgCase] :=
  have T := C1_cross_org_access_blocked sampleDualRole [sampleOtherOrgCase] []
    sampleOtherOrgCase 1 2 rfl rfl rfl rfl (List.mem_singleton_self _) rfl (by decide)
    (fun c' hc' _ => by simpa using hc')
  ⟨T.1, T.2.1 sampleRejectForm (by decide) (fun _ h => absurd h (by decide))
      (fun h => absurd rfl h) 0,
    T.2.2.1 ["Dr A"] "Dr A" 0, T.2.2.2.1 "x", T.2.2.2.2.1 sampleEditForm 0,
    T.2.2.2.2.2⟩

end VettingApp
